import Mathlib

/-!
Verification of the skoob-scraper core components against their
natural-language specification.  The definitions below are a shallow
embedding of the Python sources:

* `is_valid_jwt_token`       — src/extract_token.py, `_is_valid_jwt_token`
* `extract_from_storage`     — src/extract_token.py, `_extract_from_storage`
* `handle_request`           — src/api_request.py, `get_token_from_playwright.handle_request`
* `step` / `fetch_loop`      — src/api_request.py, `fetch_all_pages` (one loop
                               iteration, and the loop run with explicit fuel)
* `fetch_bookshelf_data`     — src/api_request.py, `fetch_bookshelf_data`
* `get_token_api_model`      — src/api_request.py, `get_token_from_playwright`
                               (resource/event skeleton)
-/

namespace Skoob

/-- Python truthiness of an optional string: `None` and `""` are falsy. -/
def py_truthy (o : Option String) : Bool :=
  match o with
  | some s => s != ""
  | none => false

/-- Python `a or b` on two optional strings: `a` if truthy, else `b`. -/
def py_or (a b : Option String) : Option String :=
  if py_truthy a then a else b

/-- Python `str.split(sep)` over the character list of a string, for a
single-character separator: splitting the empty string gives one empty
piece, and every separator occurrence starts a new piece. -/
def split_on_char (c : Char) : List Char → List (List Char)
  | [] => [[]]
  | a :: rest =>
    let r := split_on_char c rest
    if a = c then [] :: r
    else
      match r with
      | h :: t => (a :: h) :: t
      | [] => [[a]]

/-- Python substring test `pat in s` over character lists. -/
def occurs_in (pat : List Char) : List Char → Bool
  | [] => pat.isEmpty
  | a :: rest => pat.isPrefixOf (a :: rest) || occurs_in pat rest

/-- Python substring test `pat in s` on strings. -/
def contains_sub (s pat : String) : Bool :=
  occurs_in pat.data s.data

/-- Python `str.lower` for one ASCII character. -/
def lower_char (c : Char) : Char :=
  if 65 ≤ c.toNat ∧ c.toNat ≤ 90 then Char.ofNat (c.toNat + 32) else c

/-- Python `str.lower` on a string, over its character list. -/
def lower_str (s : String) : List Char :=
  s.data.map lower_char

/-- Embedding of `_is_valid_jwt_token` (src/extract_token.py lines 14-42):
false for empty input; the string must split on a dot into exactly 3 parts,
start with the literal prefix, and have length at least 50. -/
def is_valid_jwt_token (token : String) : Bool :=
  if token.data.isEmpty then false
  else
    let parts := split_on_char '.' token.data
    if parts.length != 3 then false
    else if !(List.isPrefixOf "eyJ".data token.data) then false
    else if token.data.length < 50 then false
    else true

/-- Wrapper capturing the Python `None` input case of `_is_valid_jwt_token`. -/
def is_valid_jwt_token_opt (token : Option String) : Bool :=
  match token with
  | none => false
  | some t => is_valid_jwt_token t

/-- Modelled from the spec's words (section 8, first testable property), for
comparison with the source validator: exactly 3 dot-separated NON-EMPTY
segments, the fixed 3-character prefix, and length at least 50. -/
def spec_is_valid_credential (s : String) : Prop :=
  (split_on_char '.' s.data).length = 3 ∧
  (∀ p ∈ split_on_char '.' s.data, p ≠ []) ∧
  List.isPrefixOf "eyJ".data s.data = true ∧
  50 ≤ s.data.length

instance (s : String) : Decidable (spec_is_valid_credential s) := by
  unfold spec_is_valid_credential
  infer_instance

/-! Storage scanner (src/extract_token.py, `_extract_from_storage`).
A storage namespace is modelled as an association list of key/value pairs;
`get_item` is `localStorage.getItem` (first binding wins), and
`Object.keys` enumerates the keys in declaration order. -/

/-- Fixed candidate keys, in source order (src/extract_token.py lines 149-159). -/
def storage_keys : List String :=
  ["auth_token", "token", "jwt", "authorization", "authToken",
   "accessToken", "access_token", "skoob_token", "skoob_auth"]

/-- Lookup of a key in a storage namespace (`getItem`). -/
def get_item (st : List (String × String)) (k : String) : Option String :=
  (st.find? (fun kv => kv.1 = k)).map (fun kv => kv.2)

/-- First fixed-key probe pass: return the first truthy value found under a
fixed candidate key.  NOTE: the source returns the raw value without
validating it (src/extract_token.py lines 163-168). -/
def find_fixed (st : List (String × String)) : Option String :=
  storage_keys.findSome? (fun k =>
    match get_item st k with
    | some v => if v != "" then some v else none
    | none => none)

/-- Enumeration pass: first key whose name contains "auth" or "token"
(case-insensitive) and whose value passes the validator
(src/extract_token.py lines 187-195). -/
def find_heuristic (st : List (String × String)) : Option String :=
  (st.map Prod.fst).findSome? (fun k =>
    if occurs_in "auth".data (lower_str k) || occurs_in "token".data (lower_str k) then
      match get_item st k with
      | some v => if v != "" && is_valid_jwt_token v then some v else none
      | none => none
    else none)

/-- Embedding of `_extract_from_storage`: fixed keys in localStorage, fixed
keys in sessionStorage, then the enumeration pass over each namespace. -/
def extract_from_storage (localS sessionS : List (String × String)) : Option String :=
  match find_fixed localS with
  | some v => some v
  | none =>
    match find_fixed sessionS with
    | some v => some v
    | none =>
      match find_heuristic localS with
      | some v => some v
      | none => find_heuristic sessionS

/-! Network observation callback (src/api_request.py lines 174-186). -/

/-- Shared cell written by the request listener. -/
structure NetState where
  token : Option String
  request_found : Bool
deriving DecidableEq, Repr

/-- An observed outbound request: destination URL and the two header
lookups performed by the callback. -/
structure NetReq where
  url : String
  authLower : Option String
  authUpper : Option String
deriving DecidableEq, Repr

/-- Destination-host test of the callback (substring match against the two
known API hostnames). -/
def url_is_api (u : String) : Bool :=
  contains_sub u "prd-api.skoob.com.br" || contains_sub u "api.skoob.com.br"

/-- Embedding of the `handle_request` callback inside
`get_token_from_playwright` (src/api_request.py lines 174-186): on a request
to the API host whose authorization header is truthy and passes the
validator, the shared cell is assigned — with no guard on its prior value. -/
def handle_request (st : NetState) (r : NetReq) : NetState :=
  if url_is_api r.url then
    match py_or r.authLower r.authUpper with
    | some a =>
      if a != "" && is_valid_jwt_token a then
        { token := some a, request_found := true }
      else st
    | none => st
  else st

/-- Processing a sequence of observed requests in arrival order. -/
def process_requests (st : NetState) (rs : List NetReq) : NetState :=
  rs.foldl handle_request st

/-! Resilient paginated harvest engine (src/api_request.py, `fetch_all_pages`,
lines 278-554).  Items are opaque to the engine (only counted), so an item is
modelled as a natural number.  A response is modelled by its observable
effects on the loop: transport outcome, HTTP status, emptiness of the decoded
text, and the outcome of the JSON-parse step including the
manual-decompression fallback inside the `json.JSONDecodeError` handler. -/

/-- The `user` object of a response body: an optional `id` field. -/
structure UserJson where
  id : Option String
deriving DecidableEq, Repr

/-- Parsed body of a successful page response. -/
structure PageData where
  total_pages : Option Nat
  total_items : Option Nat
  years_filter : Option Nat
  user : Option UserJson
  items : List Nat
deriving DecidableEq, Repr

/-- Outcome of the JSON-parse step for one response (lines 396-443):
either `response.json()` succeeds, or it raises and the handler's manual
decompression path decides what happens next.  The three `fail*Raise`
constructors all re-raise out of the handler (no declared encoding, an
unknown compression scheme, or a failing decompression/decode); `failRecovered`
is the path where manual decompression and `json.loads` both succeed, which
falls through to the last-page-retry logic (lines 445-471). -/
inductive ParseOutcome
  | ok (d : PageData)
  | failNoEncRaise
  | failUnknownEncRaise
  | failDecompErrRaise
  | failRecovered
deriving DecidableEq, Repr

/-- Observable behaviour of one API response. -/
structure ApiResponse where
  transportError : Bool
  status : Nat
  textEmpty : Bool
  parse : ParseOutcome
deriving DecidableEq, Repr

/-- Events performed by the engine, in order: page requests and sleeps. -/
inductive Event
  | request (page : Nat)
  | sleep (secs : Nat)
deriving DecidableEq, Repr

/-- Mutable state of the pagination loop, plus an event log and a count of
requests issued so far (the environment is indexed by that count). -/
structure HarvestState where
  all_items : List Nat
  page : Nat
  total_pages : Option Nat
  total_items : Option Nat
  years_filter : Option Nat
  user_data : Option UserJson
  user_id : String
  reqCount : Nat
  events : List Event
deriving DecidableEq, Repr

/-- Python `if total_items and len(all_items) >= total_items` (0 is falsy). -/
def tot_reached (ti : Option Nat) (n : Nat) : Bool :=
  match ti with
  | some t => t != 0 && t ≤ n
  | none => false

/-- Python `if total_pages and page > total_pages`. -/
def past_last (tp : Option Nat) (p : Nat) : Bool :=
  match tp with
  | some t => t != 0 && t < p
  | none => false

/-- Python `if total_pages and page >= total_pages`. -/
def at_last (tp : Option Nat) (p : Nat) : Bool :=
  match tp with
  | some t => t != 0 && t ≤ p
  | none => false

/-- Guard of the last-page retry (lines 446-447): advisory totals present and
truthy, current page equal to the advisory page count, and the accumulated
count still short of the advisory item count. -/
def retry_applies (s : HarvestState) : Bool :=
  match s.total_pages, s.total_items with
  | some tp, some ti =>
      tp != 0 && s.page == tp && ti != 0 && s.all_items.length < ti
  | _, _ => false

/-- User id adopted on page 1: the id embedded in the response when the
current id is empty (lines 481-485). -/
def adopt_user_id (uid : String) (d : PageData) : String :=
  match d.user with
  | some u =>
    match u.id with
    | some i => if uid = "" then i else uid
    | none => uid
  | none => uid

/-- First-page metadata capture (lines 474-485), including adoption of the
user id from the response when none was supplied. -/
def capture_meta (s : HarvestState) (d : PageData) : HarvestState :=
  { s with total_pages := d.total_pages, total_items := d.total_items,
           years_filter := d.years_filter, user_data := d.user,
           user_id := adopt_user_id s.user_id d }

/-- Outcome of one loop iteration: continue to the next page, break out of
the loop (a result is returned), or the hard-failure `return None`. -/
inductive StepOut
  | cont (s : HarvestState)
  | halt (s : HarvestState)
  | fail (s : HarvestState)
deriving DecidableEq, Repr

/-- Issuing the request for the current page: the request counter advances
and the request event is logged (line 316). -/
def after_request (s : HarvestState) : HarvestState :=
  { s with reqCount := s.reqCount + 1,
           events := s.events ++ [Event.request s.page] }

/-- Advancing to the next page (`page += 1; continue`). -/
def next_page (s : HarvestState) : HarvestState :=
  { s with page := s.page + 1 }

/-- A raising failure of the page: `return None` on page 1, otherwise break
out of the loop with what was accumulated (lines 325-337, 525-541). -/
def fail_or_halt (s : HarvestState) : StepOut :=
  if s.page = 1 then StepOut.fail s else StepOut.halt s

/-- The empty-body branch (lines 373-383): stop when the advisory item
total is met or the page is past the advisory page count, else advance. -/
def empty_branch (s : HarvestState) : StepOut :=
  if tot_reached s.total_items s.all_items.length then StepOut.halt s
  else if past_last s.total_pages s.page then StepOut.halt s
  else StepOut.cont (next_page s)

/-- The successfully-parsed branch (lines 473-523): capture metadata on
page 1, handle an empty item list, else append and apply the three stop
conditions (advisory item total, advisory page count, short page). -/
def ok_branch (limit : Nat) (s : HarvestState) (d : PageData) : StepOut :=
  let s1 := if s.page = 1 then capture_meta s d else s
  if d.items.isEmpty then
    if tot_reached s1.total_items s1.all_items.length then StepOut.halt s1
    else if at_last s1.total_pages s1.page then StepOut.halt s1
    else StepOut.cont (next_page s1)
  else
    let s2 := { s1 with all_items := s1.all_items ++ d.items }
    if tot_reached s2.total_items s2.all_items.length then StepOut.halt s2
    else if at_last s2.total_pages s2.page then StepOut.halt s2
    else if d.items.length < limit then StepOut.halt s2
    else StepOut.cont (next_page s2)

/-- The recovered-parse-failure branch (lines 445-471): when this is the
last expected page and items are missing, sleep 2 seconds and retry the
same page once, appending its items and breaking on a successful non-empty
retry; in every other case fall through to the stop checks and otherwise
skip to the next page. -/
def recovered_branch (env : Nat → ApiResponse) (s : HarvestState) : StepOut :=
  let retried :=
    if retry_applies s then
      let s1 := { s with events := s.events ++ [Event.sleep 2] }
      let rr := env s1.reqCount
      let s2 := { s1 with reqCount := s1.reqCount + 1,
                          events := s1.events ++ [Event.request s1.page] }
      if rr.transportError then (s2, false)
      else if rr.status = 200 then
        match rr.parse with
        | ParseOutcome.ok d =>
          if d.items.isEmpty then (s2, false)
          else ({ s2 with all_items := s2.all_items ++ d.items }, true)
        | _ => (s2, false)
      else (s2, false)
    else (s, false)
  let s3 := retried.1
  if retried.2 then StepOut.halt s3
  else if tot_reached s3.total_items s3.all_items.length then StepOut.halt s3
  else if past_last s3.total_pages s3.page then StepOut.halt s3
  else StepOut.cont (next_page s3)

/-- One iteration of the `while True` loop of `fetch_all_pages`
(lines 304-541).  The environment maps the index of a request (number of
requests already issued) to its response; the retry inside the decode-error
handler consumes the next response. -/
def step (env : Nat → ApiResponse) (limit : Nat) (s0 : HarvestState) : StepOut :=
  let r := env s0.reqCount
  let s := after_request s0
  if r.transportError then fail_or_halt s
  else if r.status ≠ 200 then fail_or_halt s
  else if r.textEmpty then empty_branch s
  else
    match r.parse with
    | ParseOutcome.ok d => ok_branch limit s d
    | ParseOutcome.failNoEncRaise => fail_or_halt s
    | ParseOutcome.failUnknownEncRaise => fail_or_halt s
    | ParseOutcome.failDecompErrRaise => fail_or_halt s
    | ParseOutcome.failRecovered => recovered_branch env s

/-- Python `x or d` for the two advisory fields of the result: a `None` or
zero advisory value falls back to the default (lines 547-548). -/
def or_nonzero (o : Option Nat) (d : Nat) : Nat :=
  match o with
  | some n => if n = 0 then d else n
  | none => d

/-- The result dictionary built after the loop (lines 546-552). -/
structure HarvestResult where
  total_pages : Nat
  total_items : Nat
  years_filter : Option Nat
  user : Option UserJson
  items : List Nat
deriving DecidableEq, Repr

/-- Construction of the result from the final loop state. -/
def mk_result (s : HarvestState) : HarvestResult :=
  { total_pages := or_nonzero s.total_pages (s.page - 1),
    total_items := or_nonzero s.total_items s.all_items.length,
    years_filter := s.years_filter,
    user := s.user_data,
    items := s.all_items }

/-- Result of running the loop with explicit fuel: still running when fuel
ran out, or finished with the Python return value (`none` is `return None`). -/
inductive RunOut
  | running (s : HarvestState)
  | finished (r : Option HarvestResult) (s : HarvestState)
deriving DecidableEq, Repr

/-- The pagination loop, with fuel bounding the number of iterations. -/
def fetch_loop (env : Nat → ApiResponse) (limit : Nat) : Nat → HarvestState → RunOut
  | 0, s => RunOut.running s
  | Nat.succ n, s =>
    match step env limit s with
    | StepOut.cont s2 => fetch_loop env limit n s2
    | StepOut.halt s2 => RunOut.finished (some (mk_result s2)) s2
    | StepOut.fail s2 => RunOut.finished none s2

/-- Initial loop state (lines 295-300). -/
def init_state (uid : String) : HarvestState :=
  { all_items := [], page := 1, total_pages := none, total_items := none,
    years_filter := none, user_data := none, user_id := uid,
    reqCount := 0, events := [] }

/-- Embedding of `fetch_all_pages`, run from the initial state with the
given fuel. -/
def fetch_all_pages (env : Nat → ApiResponse) (uid : String) (limit : Nat)
    (fuel : Nat) : RunOut :=
  fetch_loop env limit fuel (init_state uid)

/-- Final state carried by a run outcome. -/
def final_state : RunOut → HarvestState
  | RunOut.running s => s
  | RunOut.finished _ s => s

/-- Whether a run is still in progress (fuel exhausted mid-loop). -/
def is_running : RunOut → Bool
  | RunOut.running _ => true
  | RunOut.finished _ _ => false

/-- Whether a run ended in the hard failure `return None`. -/
def is_failure : RunOut → Bool
  | RunOut.finished none _ => true
  | _ => false

/-- The pages of the request events of a log, in order. -/
def requested_pages (evs : List Event) : List Nat :=
  evs.filterMap (fun e =>
    match e with
    | Event.request p => some p
    | Event.sleep _ => none)

/-- Transport-level failure of a response: a request exception or a
non-200 status. -/
def transport_fail (r : ApiResponse) : Bool :=
  r.transportError || (r.status != 200)

/-! Token acquisition flow (src/api_request.py, `get_token_from_playwright`,
lines 136-275, and src/get_token.py lines 43-98).  The browser control
runtime is modelled by an oracle of the outcomes of the blocking operations;
the function body is the `try` block, whose result is either a normal return
value or a raised exception, and the surrounding `except`/`finally` pair is
applied to it.  Browser-lifecycle operations are logged as events. -/

/-- Browser-lifecycle and navigation events, in order of occurrence. -/
inductive BEvent
  | launch
  | navigate (target : Nat)
  | close
deriving DecidableEq, Repr

/-- Result of a computation that may raise: a value, or an exception. -/
inductive Exc (α : Type)
  | ok (a : α)
  | err
deriving DecidableEq, Repr

/-- Oracle for the blocking operations of the acquisition flow. -/
structure AcqEnv where
  navLoginFirstOk : Bool
  navLoginRetryOk : Bool
  netToken : Option String
  storageToken : Option String
  secondTryToken : Option String
  userIdFromPage : Option String
  unexpectedError : Bool
deriving DecidableEq, Repr

/-- The body of the `try` block of `get_token_from_playwright`
(src/api_request.py lines 143-269): navigate to the login page (retried once
with a looser readiness criterion, line 150), observe network traffic,
fall back to storage (validating its result, lines 242-244), then one more
attempt after manual navigation (line 252).  Any other exception inside the
block is modelled by the `unexpectedError` flag.  Returns the events the
body performed and its outcome. -/
def acq_body (e : AcqEnv) : List BEvent × Exc (Option String × Option String) :=
  if !e.navLoginFirstOk && !e.navLoginRetryOk then
    ([BEvent.navigate 0], Exc.err)
  else if e.unexpectedError then
    ([BEvent.navigate 0, BEvent.navigate 1], Exc.err)
  else
    let evs := [BEvent.navigate 0, BEvent.navigate 1, BEvent.navigate 2]
    let token0 := e.netToken
    let token1 :=
      match token0 with
      | some t => some t
      | none =>
        match e.storageToken with
        | some t => if is_valid_jwt_token t then some t else none
        | none => none
    let token2 :=
      match token1 with
      | some t => some t
      | none => e.secondTryToken
    let outcome :=
      match token2 with
      | some t =>
        match e.userIdFromPage with
        | some u => Exc.ok (some t, some u)
        | none => Exc.ok (some t, none)
      | none => Exc.ok (none, none)
    (evs, outcome)

/-- Embedding of `get_token_from_playwright` (src/api_request.py): launch the
browser, run the body, and apply the `except Exception` handler (which
returns the pair of `None`s) and the `finally: browser.close()` clause. -/
def get_token_api_model (e : AcqEnv) :
    (Option String × Option String) × List BEvent :=
  let launched := [BEvent.launch]
  let body := acq_body e
  match body.2 with
  | Exc.ok v => (v, launched ++ body.1 ++ [BEvent.close])
  | Exc.err => ((none, none), launched ++ body.1 ++ [BEvent.close])

/-- The body of the `try` block of the `get_token_from_playwright` variant in
src/get_token.py (lines 59-92): one navigation policy, one combined
extraction attempt, one more after manual navigation. -/
def acq_body_gt (e : AcqEnv) : List BEvent × Exc (Option String) :=
  if !e.navLoginFirstOk then
    ([BEvent.navigate 0], Exc.err)
  else if e.unexpectedError then
    ([BEvent.navigate 0, BEvent.navigate 1], Exc.err)
  else
    let evs := [BEvent.navigate 0, BEvent.navigate 1]
    let token1 :=
      match e.netToken with
      | some t => some t
      | none =>
        match e.storageToken with
        | some t => if is_valid_jwt_token t then some t else none
        | none => none
    let outcome :=
      match token1 with
      | some t => Exc.ok (some t)
      | none => Exc.ok e.secondTryToken
    (evs, outcome)

/-- Embedding of src/get_token.py's `get_token_from_playwright`: same
`except`/`finally` structure with a single-string result. -/
def get_token_gt_model (e : AcqEnv) : Option String × List BEvent :=
  let launched := [BEvent.launch]
  let body := acq_body_gt e
  match body.2 with
  | Exc.ok v => (v, launched ++ body.1 ++ [BEvent.close])
  | Exc.err => (none, launched ++ body.1 ++ [BEvent.close])

/-! Orchestration entry point (src/api_request.py, `fetch_bookshelf_data`,
lines 586-645). -/

/-- Outcome of `get_token_from_playwright` as seen by its caller: `None`
(import failure) or a pair of optional strings. -/
inductive PwOut
  | noneRes
  | tup (t : Option String) (u : Option String)
deriving DecidableEq, Repr

/-- Environment of `fetch_bookshelf_data`: the acquisition result and an
oracle for what `fetch_all_pages` returns for given token and user id. -/
structure FBEnv where
  pw : PwOut
  fetch : String → String → Option Nat

/-- Observable outcome of `fetch_bookshelf_data`: the returned value, whether
the browser acquisition ran, and the arguments passed to `fetch_all_pages`
(if it was reached). -/
structure FBOut where
  result : Option Nat
  pwInvoked : Bool
  fetchArgs : Option (String × String)
deriving DecidableEq, Repr

/-- Embedding of `fetch_bookshelf_data` (lines 601-645): the browser
acquisition runs iff the token or the user id is absent or empty; afterwards
`fetch_all_pages` receives the token and `user_id or ""`. -/
def fetch_bookshelf_data (env : FBEnv) (token userId : Option String) : FBOut :=
  if !(py_truthy token) || !(py_truthy userId) then
    match env.pw with
    | PwOut.noneRes => { result := none, pwInvoked := true, fetchArgs := none }
    | PwOut.tup et eu =>
      if et = none then { result := none, pwInvoked := true, fetchArgs := none }
      else
        let token1 := if !(py_truthy token) then et else token
        let userId1 := if !(py_truthy userId) then eu else userId
        if !(py_truthy token1) then
          { result := none, pwInvoked := true, fetchArgs := none }
        else
          let t := token1.getD ""
          let u := if py_truthy userId1 then userId1.getD "" else ""
          { result := env.fetch t u, pwInvoked := true, fetchArgs := some (t, u) }
  else
    let t := token.getD ""
    let u := if py_truthy userId then userId.getD "" else ""
    { result := env.fetch t u, pwInvoked := false, fetchArgs := some (t, u) }

/-! Concrete inputs used by the counterexamples and witnesses. -/

/-- A 50-character string accepted by the source validator although its
second and third dot-separated segments are empty. -/
def cex_jwt : String := "eyJaaaaaaaaaaaaaaaaaaaaaaaaaaaaaaaaaaaaaaaaaaaaa.."

/-- A structurally valid credential (3 nonempty segments, prefix, length 52). -/
def good_jwt : String := "eyJaaaaaaaaaaaaaaaaaaaaaaaaaaaaaaaaaaaaaaaaaaaaa.b.c"

/-- A second, different structurally valid credential. -/
def good_jwt2 : String := "eyJbbbbbbbbbbbbbbbbbbbbbbbbbbbbbbbbbbbbbbbbbbbbb.b.c"

/-- The result value of a finished run (`none` for a still-running one). -/
def run_result : RunOut → Option HarvestResult
  | RunOut.running _ => none
  | RunOut.finished r _ => r

/-- A localStorage namespace holding an invalid value under the fixed key
and a valid credential under a key found only by the enumeration pass. -/
def c4_storage : List (String × String) :=
  [("auth_token", "notavalidtoken"), ("my_token_key", good_jwt)]

/-- An observed API request carrying the first valid credential. -/
def req_a : NetReq :=
  { url := "https://prd-api.skoob.com.br/api/v1/bookshelf",
    authLower := some good_jwt, authUpper := none }

/-- A later observed API request carrying a different valid credential. -/
def req_b : NetReq :=
  { url := "https://prd-api.skoob.com.br/api/v1/bookshelf",
    authLower := some good_jwt2, authUpper := none }

/-- A response declaring 3 advisory pages and 75 advisory items, carrying
25 items (the spec's harvest-termination scenario). -/
def c8_resp : ApiResponse :=
  { transportError := false, status := 200, textEmpty := false,
    parse := ParseOutcome.ok
      { total_pages := some 3, total_items := some 75, years_filter := none,
        user := none, items := List.replicate 25 0 } }

/-- Environment where every page responds with `c8_resp`. -/
def c8_env : Nat → ApiResponse := fun _ => c8_resp

/-- First page of the last-page-retry scenario: advisory totals 2 pages and
50 items, 30 items delivered. -/
def c1_page1 : ApiResponse :=
  { transportError := false, status := 200, textEmpty := false,
    parse := ParseOutcome.ok
      { total_pages := some 2, total_items := some 50, years_filter := none,
        user := none, items := List.replicate 30 0 } }

/-- A response whose body fails to parse and whose declared compression
scheme is unknown (the manual fallback raises `ValueError`). -/
def c1_unknown_enc : ApiResponse :=
  { transportError := false, status := 200, textEmpty := false,
    parse := ParseOutcome.failUnknownEncRaise }

/-- Environment of the C1 counterexample: page 1 fine, page 2 unparsable
with an unknown compression scheme. -/
def c1_env : Nat → ApiResponse :=
  fun n => if n = 0 then c1_page1 else c1_unknown_enc

/-- A page-2 response whose body fails `response.json()` but is recovered by
the manual-decompression fallback. -/
def c1_recovered : ApiResponse :=
  { transportError := false, status := 200, textEmpty := false,
    parse := ParseOutcome.failRecovered }

/-- The retry response of the C1 scenario: 20 items. -/
def c1_retry_ok : ApiResponse :=
  { transportError := false, status := 200, textEmpty := false,
    parse := ParseOutcome.ok
      { total_pages := none, total_items := none, years_filter := none,
        user := none, items := List.replicate 20 1 } }

/-- Environment of the C1 amended scenario: page 1 fine, page 2 recovered
parse failure, retry succeeds with 20 items. -/
def c1_env_retry : Nat → ApiResponse :=
  fun n => if n = 0 then c1_page1 else if n = 1 then c1_recovered else c1_retry_ok

/-- A page with no advisory metadata and 12 items (a short page at the
default page size of 30). -/
def c7_resp : ApiResponse :=
  { transportError := false, status := 200, textEmpty := false,
    parse := ParseOutcome.ok
      { total_pages := none, total_items := none, years_filter := none,
        user := none, items := List.replicate 12 0 } }

/-- Environment where every page responds with `c7_resp`. -/
def c7_env : Nat → ApiResponse := fun _ => c7_resp

/-- A response with an empty decoded body. -/
def empty_resp : ApiResponse :=
  { transportError := false, status := 200, textEmpty := true,
    parse := ParseOutcome.failNoEncRaise }

/-- Environment where every response has an empty body and no advisory
metadata is ever learned. -/
def empty_env : Nat → ApiResponse := fun _ => empty_resp

/-- A response suffering a transport-level request exception. -/
def transport_err_resp : ApiResponse :=
  { transportError := true, status := 200, textEmpty := false,
    parse := ParseOutcome.failNoEncRaise }

/-- Environment whose very first request fails at the transport level. -/
def c5_env_fail1 : Nat → ApiResponse := fun _ => transport_err_resp

/-- A full first page: advisory totals 5 pages and 150 items, 30 items. -/
def c5_page1 : ApiResponse :=
  { transportError := false, status := 200, textEmpty := false,
    parse := ParseOutcome.ok
      { total_pages := some 5, total_items := some 150, years_filter := none,
        user := none, items := List.replicate 30 0 } }

/-- Environment where page 1 succeeds and page 2 fails at transport level. -/
def c5_env_fail2 : Nat → ApiResponse :=
  fun n => if n = 0 then c5_page1 else transport_err_resp

/-- The loop state after page 1 of the last-page-retry scenario: 30 items
accumulated, advisory totals 2 pages and 50 items, about to fetch page 2. -/
def c1_wit_state : HarvestState :=
  { all_items := List.replicate 30 0, page := 2, total_pages := some 2,
    total_items := some 50, years_filter := none, user_data := none,
    user_id := "u", reqCount := 1, events := [Event.request 1] }

/-- The parsed body of the retry response in the C1 scenario. -/
def c1_retry_data : PageData :=
  { total_pages := none, total_items := none, years_filter := none,
    user := none, items := List.replicate 20 1 }

/-- The loop state after page 1 of the first-page-hard-failure scenario:
30 items accumulated, advisory totals 5 pages and 150 items. -/
def c5_wit_state : HarvestState :=
  { all_items := List.replicate 30 0, page := 2, total_pages := some 5,
    total_items := some 150, years_filter := none, user_data := none,
    user_id := "u", reqCount := 1, events := [Event.request 1] }

/-- The final loop state of the C7 counterexample run (short page 1 at the
default page size, no advisory metadata). -/
def c7_final : HarvestState :=
  { all_items := List.replicate 12 0, page := 1, total_pages := none,
    total_items := none, years_filter := none, user_data := none,
    user_id := "u", reqCount := 1, events := [Event.request 1] }

/-- A concrete environment for `fetch_bookshelf_data`: successful
acquisition pair and a fetch oracle. -/
def c10_env : FBEnv :=
  { pw := PwOut.tup (some good_jwt) (some "77"), fetch := fun _ _ => some 7 }

end Skoob

namespace Skoob

/-- C2 counterexample: the source validator accepts a 50-character string
whose second and third dot-separated segments are empty, so the claimed
equivalence with the three-NON-EMPTY-segments predicate fails. -/
theorem c2_counterexample :
    is_valid_jwt_token cex_jwt = true ∧ ¬ spec_is_valid_credential cex_jwt := by
  constructor
  · decide
  · decide

/-- C2 amended: for every string s, the validator accepts s iff s splits on
a dot into exactly 3 (possibly empty) segments, s starts with the fixed
3-character prefix, and s has length at least 50; it also rejects the empty
string and the absent (non-string) input. -/
theorem c2_amended :
    (∀ s : String, is_valid_jwt_token s = true ↔
      ((split_on_char '.' s.data).length = 3 ∧
       List.isPrefixOf "eyJ".data s.data = true ∧ 50 ≤ s.data.length)) ∧
    is_valid_jwt_token "" = false ∧ is_valid_jwt_token_opt none = false := by
  refine ⟨?_, by decide, rfl⟩
  intro s
  by_cases hs : s.data.isEmpty = true
  · have hnil : s.data = [] := by
      cases h : s.data with
      | nil => rfl
      | cons a t => rw [h] at hs; simp [List.isEmpty] at hs
    simp only [is_valid_jwt_token, if_pos hs, hnil]
    constructor
    · intro h; exact absurd h (by simp)
    · intro h
      have := h.1
      simp [split_on_char] at this
  · simp only [is_valid_jwt_token, if_neg hs]
    by_cases h3 : (split_on_char '.' s.data).length = 3
    · by_cases hp : List.isPrefixOf "eyJ".data s.data = true
      · by_cases hl : 50 ≤ s.data.length
        · have hlt : ¬ (s.data.length < 50) := by omega
          simp [h3, hp, hlt, hl]
        · have hlt : s.data.length < 50 := by omega
          simp [h3, hp, hlt]
      · simp [h3, hp]
    · simp [h3]

/-- Helper: `requested_pages` distributes over list append. -/
theorem requested_pages_append (a b : List Event) :
    requested_pages (a ++ b) = requested_pages a ++ requested_pages b := by
  simp [requested_pages, List.filterMap_append]

/-- Helper: a log ending in a request event has that page as its last
requested page. -/
theorem last_req (xs : List Event) (p : Nat) :
    (requested_pages (xs ++ [Event.request p])).getLast? = some p := by
  rw [requested_pages_append]
  simp [requested_pages]

/-- Helper: the raise branch returns the hard failure exactly on page 1. -/
theorem fail_or_halt_fail {s s2 : HarvestState}
    (h : fail_or_halt s = StepOut.fail s2) : s.page = 1 ∧ s2 = s := by
  unfold fail_or_halt at h
  split at h
  · exact ⟨by assumption, by cases h; rfl⟩
  · cases h

/-- Helper: the raise branch breaks with the state unchanged. -/
theorem fail_or_halt_halt {s s2 : HarvestState}
    (h : fail_or_halt s = StepOut.halt s2) : s2 = s := by
  unfold fail_or_halt at h
  split at h
  · cases h
  · cases h; rfl

/-- Helper: the raise branch never continues the loop. -/
theorem fail_or_halt_cont {s s2 : HarvestState}
    (h : fail_or_halt s = StepOut.cont s2) : False := by
  unfold fail_or_halt at h
  split at h <;> cases h

/-- Helper: the empty-body branch never returns the hard failure. -/
theorem empty_branch_fail {s s2 : HarvestState}
    (h : empty_branch s = StepOut.fail s2) : False := by
  unfold empty_branch at h
  split at h
  · cases h
  · split at h <;> cases h

/-- Helper: the empty-body branch breaks with the state unchanged. -/
theorem empty_branch_halt {s s2 : HarvestState}
    (h : empty_branch s = StepOut.halt s2) : s2 = s := by
  unfold empty_branch at h
  split at h
  · cases h; rfl
  · split at h
    · cases h; rfl
    · cases h

/-- Helper: the empty-body branch continues to the next page. -/
theorem empty_branch_cont {s s2 : HarvestState}
    (h : empty_branch s = StepOut.cont s2) : s2 = next_page s := by
  unfold empty_branch at h
  split at h
  · cases h
  · split at h
    · cases h
    · cases h; rfl

/-- Helper: the parsed branch never returns the hard failure. -/
theorem ok_branch_fail {limit : Nat} {s s2 : HarvestState} {d : PageData}
    (h : ok_branch limit s d = StepOut.fail s2) : False := by
  unfold ok_branch at h
  dsimp only at h
  split at h <;> repeat' split at h
  all_goals cases h

/-- Helper: the parsed branch continues with the page advanced by one. -/
theorem ok_branch_cont_page {limit : Nat} {s s2 : HarvestState} {d : PageData}
    (h : ok_branch limit s d = StepOut.cont s2) : s2.page = s.page + 1 := by
  unfold ok_branch at h
  dsimp only at h
  split at h <;> repeat' split at h
  all_goals cases h
  all_goals rfl

/-- Helper: the parsed branch breaks with the page and the event log
unchanged. -/
theorem ok_branch_halt_shape {limit : Nat} {s s2 : HarvestState} {d : PageData}
    (h : ok_branch limit s d = StepOut.halt s2) :
    s2.page = s.page ∧ s2.events = s.events := by
  unfold ok_branch at h
  dsimp only at h
  split at h <;> repeat' split at h
  all_goals cases h
  all_goals exact ⟨rfl, rfl⟩

/-- Helper: the recovered-parse-failure branch never returns the hard
failure. -/
theorem recovered_branch_fail {env : Nat → ApiResponse} {s s2 : HarvestState}
    (h : recovered_branch env s = StepOut.fail s2) : False := by
  unfold recovered_branch at h
  dsimp only at h
  split at h <;> repeat' split at h
  all_goals cases h

/-- Helper: the recovered-parse-failure branch continues with the page
advanced by one. -/
theorem recovered_branch_cont_page {env : Nat → ApiResponse} {s s2 : HarvestState}
    (h : recovered_branch env s = StepOut.cont s2) : s2.page = s.page + 1 := by
  unfold recovered_branch at h
  dsimp only at h
  split at h <;> repeat' split at h
  all_goals cases h
  all_goals rfl

/-- Helper: the recovered-parse-failure branch breaks with the page
unchanged and the event log either untouched or extended by the sleep and
the retry request of the same page. -/
theorem recovered_branch_halt_shape {env : Nat → ApiResponse} {s s2 : HarvestState}
    (h : recovered_branch env s = StepOut.halt s2) :
    s2.page = s.page ∧ (s2.events = s.events ∨
      s2.events = (s.events ++ [Event.sleep 2]) ++ [Event.request s.page]) := by
  unfold recovered_branch at h
  dsimp only at h
  split at h <;> repeat' split at h
  all_goals cases h
  all_goals first
    | exact ⟨rfl, Or.inl rfl⟩
    | exact ⟨rfl, Or.inr rfl⟩

/-- Helper: one loop iteration returns the hard failure only on page 1. -/
theorem step_fail_page1 {env : Nat → ApiResponse} {limit : Nat}
    {s s2 : HarvestState} (h : step env limit s = StepOut.fail s2) :
    s.page = 1 := by
  unfold step at h
  dsimp only at h
  split at h
  · exact (fail_or_halt_fail h).1
  · split at h
    · exact (fail_or_halt_fail h).1
    · split at h
      · exact absurd h (fun hc => empty_branch_fail hc)
      · split at h
        · exact absurd h (fun hc => ok_branch_fail hc)
        · exact (fail_or_halt_fail h).1
        · exact (fail_or_halt_fail h).1
        · exact (fail_or_halt_fail h).1
        · exact absurd h (fun hc => recovered_branch_fail hc)

/-- Helper: one loop iteration that continues advances the page by one. -/
theorem step_cont_page {env : Nat → ApiResponse} {limit : Nat}
    {s s2 : HarvestState} (h : step env limit s = StepOut.cont s2) :
    s2.page = s.page + 1 := by
  unfold step at h
  dsimp only at h
  split at h
  · exact absurd h (fun hc => fail_or_halt_cont hc)
  · split at h
    · exact absurd h (fun hc => fail_or_halt_cont hc)
    · split at h
      · rw [empty_branch_cont h]; rfl
      · split at h
        · have hp := ok_branch_cont_page h
          exact hp
        · exact absurd h (fun hc => fail_or_halt_cont hc)
        · exact absurd h (fun hc => fail_or_halt_cont hc)
        · exact absurd h (fun hc => fail_or_halt_cont hc)
        · have hp := recovered_branch_cont_page h
          exact hp

/-- Helper: a breaking iteration leaves a log whose last requested page is
the page of the final state. -/
theorem step_halt_last_request {env : Nat → ApiResponse} {limit : Nat}
    {s s2 : HarvestState} (h : step env limit s = StepOut.halt s2) :
    (requested_pages s2.events).getLast? = some s2.page := by
  unfold step at h
  dsimp only at h
  split at h
  · rw [fail_or_halt_halt h]; exact last_req s.events s.page
  · split at h
    · rw [fail_or_halt_halt h]; exact last_req s.events s.page
    · split at h
      · rw [empty_branch_halt h]; exact last_req s.events s.page
      · split at h
        · obtain ⟨hp, he⟩ := ok_branch_halt_shape h
          rw [hp, he]; exact last_req s.events s.page
        · rw [fail_or_halt_halt h]; exact last_req s.events s.page
        · rw [fail_or_halt_halt h]; exact last_req s.events s.page
        · rw [fail_or_halt_halt h]; exact last_req s.events s.page
        · obtain ⟨hp, he⟩ := recovered_branch_halt_shape h
          rw [hp]
          cases he with
          | inl h1 => rw [h1]; exact last_req s.events s.page
          | inr h2 => rw [h2]; exact last_req _ _

/-- Helper: from any state already past page 1, the loop can never return
the hard failure, whatever the remaining responses are. -/
theorem fetch_loop_no_fail (env : Nat → ApiResponse) (limit : Nat) :
    ∀ (fuel : Nat) (s : HarvestState), 2 ≤ s.page →
      is_failure (fetch_loop env limit fuel s) = false := by
  intro fuel
  induction fuel with
  | zero => intro s hs; rfl
  | succ n ih =>
    intro s hs
    rw [fetch_loop]
    cases hstep : step env limit s with
    | cont s2 =>
      exact ih s2 (by have hp := step_cont_page hstep; omega)
    | halt s2 => rfl
    | fail s2 =>
      have hp := step_fail_page1 hstep
      omega

/-- Helper: a run that finishes with a result built it from the final state
via `mk_result`, and the final state's page is the last page requested. -/
theorem fetch_loop_finished_some {env : Nat → ApiResponse} {limit : Nat} :
    ∀ {fuel : Nat} {s s2 : HarvestState} {r : HarvestResult},
      fetch_loop env limit fuel s = RunOut.finished (some r) s2 →
      r = mk_result s2 ∧ (requested_pages s2.events).getLast? = some s2.page := by
  intro fuel
  induction fuel with
  | zero => intro s s2 r h; cases h
  | succ n ih =>
    intro s s2 r h
    rw [fetch_loop] at h
    cases hstep : step env limit s with
    | cont s3 => rw [hstep] at h; exact ih h
    | halt s3 =>
      rw [hstep] at h
      have hr : some (mk_result s3) = some r ∧ s3 = s2 := by
        cases h; exact ⟨rfl, rfl⟩
      obtain ⟨h1, h2⟩ := hr
      cases h1
      subst h2
      exact ⟨rfl, step_halt_last_request hstep⟩
    | fail s3 => rw [hstep] at h; cases h

/-- Helper: a transport-level failure routes the iteration into the
raise branch with the request logged. -/
theorem step_transport_fail {env : Nat → ApiResponse} {limit : Nat}
    {s : HarvestState} (h : transport_fail (env s.reqCount) = true) :
    step env limit s = fail_or_halt (after_request s) := by
  unfold transport_fail at h
  unfold step
  dsimp only
  cases htr : (env s.reqCount).transportError with
  | true => simp [htr]
  | false =>
    rw [htr] at h
    simp only [Bool.false_or] at h
    simp [htr, Nat.ne_of_beq_eq_false, h]
    intro hc
    rw [hc] at h
    simp at h

/-- Helper: a page iteration under the always-empty environment continues
to the next page when no advisory totals are known. -/
theorem step_empty {limit : Nat} {s : HarvestState}
    (h1 : s.total_items = none) (h2 : s.total_pages = none) :
    step empty_env limit s = StepOut.cont (next_page (after_request s)) := by
  unfold step
  dsimp only
  simp [empty_env, empty_resp, empty_branch, after_request, tot_reached,
        past_last, h1, h2]

/-- Helper: under the always-empty environment the loop never finishes:
after any number of iterations it is still running with one request issued
per iteration and no advisory totals learned. -/
theorem fetch_loop_empty (limit : Nat) :
    ∀ (fuel : Nat) (s : HarvestState),
      s.total_items = none → s.total_pages = none →
      ∃ s2, fetch_loop empty_env limit fuel s = RunOut.running s2 ∧
        s2.reqCount = s.reqCount + fuel ∧
        s2.total_items = none ∧ s2.total_pages = none := by
  intro fuel
  induction fuel with
  | zero => intro s h1 h2; exact ⟨s, rfl, by omega, h1, h2⟩
  | succ n ih =>
    intro s h1 h2
    rw [fetch_loop, step_empty h1 h2]
    obtain ⟨s2, hrun, hc, hti, htp⟩ := ih (next_page (after_request s)) h1 h2
    refine ⟨s2, hrun, ?_, hti, htp⟩
    have hstep : (next_page (after_request s)).reqCount = s.reqCount + 1 := rfl
    rw [hstep] at hc
    omega

/-- Helper: a property preserved by the element function of `findSome?`
holds for the value it finds. -/
theorem findSome?_prop {α β : Type} (f : α → Option β) (P : β → Prop)
    (hf : ∀ a b, f a = some b → P b) :
    ∀ (l : List α) (b : β), l.findSome? f = some b → P b := by
  intro l
  induction l with
  | nil => intro b h; simp [List.findSome?] at h
  | cons a t ih =>
    intro b h
    rw [List.findSome?] at h
    cases hfa : f a with
    | some c =>
      rw [hfa] at h
      have hcb : c = b := by simpa using h
      exact hf a b (hcb ▸ hfa)
    | none =>
      rw [hfa] at h
      exact ih b (by simpa using h)

/-- Helper: every value produced by the enumeration pass passed the
validator. -/
theorem find_heuristic_valid (st : List (String × String)) (v : String)
    (h : find_heuristic st = some v) : is_valid_jwt_token v = true := by
  refine findSome?_prop _ (fun b => is_valid_jwt_token b = true) ?_ _ v h
  intro k b hb
  dsimp only at hb
  split at hb
  · cases hg : get_item st k with
    | some w =>
      rw [hg] at hb
      dsimp only at hb
      split at hb
      · rename_i hcond
        cases hb
        exact (Bool.and_eq_true _ _ |>.mp hcond).2
      · simp at hb
    | none =>
      rw [hg] at hb
      simp at hb
  · simp at hb

/-- C4 counterexample: an invalid value stored under the fixed key
`auth_token` is returned by the storage scanner without validation, even
though the enumeration pass would have found a valid credential under
another key. -/
theorem c4_counterexample :
    extract_from_storage c4_storage [] = some "notavalidtoken" ∧
    is_valid_jwt_token "notavalidtoken" = false ∧
    find_heuristic c4_storage = some good_jwt ∧
    is_valid_jwt_token good_jwt = true := by
  refine ⟨by decide, by decide, by decide, by decide⟩

/-- C4 amended: the fixed-key pass returns the first truthy value found
under a fixed candidate key WITHOUT validating it, and such a value
shadows the enumeration pass; only the enumeration pass validates its
candidates, and it is reached exactly when both fixed-key passes and the
earlier enumeration pass found nothing. -/
theorem c4_amended :
    (∀ (l s : List (String × String)) (v : String),
      find_fixed l = some v → extract_from_storage l s = some v) ∧
    (∀ (st : List (String × String)) (v : String),
      find_heuristic st = some v → is_valid_jwt_token v = true) ∧
    (∀ l s : List (String × String),
      find_fixed l = none → find_fixed s = none → find_heuristic l = none →
      extract_from_storage l s = find_heuristic s) := by
  refine ⟨?_, find_heuristic_valid, ?_⟩
  · intro l s v h
    unfold extract_from_storage
    rw [h]
  · intro l s h1 h2 h3
    unfold extract_from_storage
    rw [h1, h2, h3]

/-- C4 witness: concrete instantiation of the three amended conjuncts. -/
theorem c4_amended_witness :
    extract_from_storage c4_storage [] = some "notavalidtoken" ∧
    is_valid_jwt_token good_jwt = true ∧
    extract_from_storage [] [("x", good_jwt)] = find_heuristic [("x", good_jwt)] := by
  refine ⟨c4_amended.1 c4_storage [] "notavalidtoken" (by decide),
          c4_amended.2.1 c4_storage good_jwt (by decide),
          c4_amended.2.2 [] [("x", good_jwt)] (by decide) (by decide) (by decide)⟩

/-- C6 counterexample: after the first structurally valid credential is
stored in the shared cell, processing a later API request carrying a
different valid credential OVERWRITES the cell — the callback is not
first-writer-wins. -/
theorem c6_counterexample :
    (process_requests { token := none, request_found := false } [req_a]).token
      = some good_jwt ∧
    (process_requests { token := none, request_found := false } [req_a, req_b]).token
      = some good_jwt2 ∧
    good_jwt ≠ good_jwt2 := by
  refine ⟨by decide, by decide, by decide⟩

/-- C6 amended: the callback is last-writer-wins while the listener is
attached: every observed API request with a truthy, structurally valid
authorization header overwrites the shared cell regardless of its prior
contents, and requests to other hosts leave the cell unchanged. -/
theorem c6_amended :
    (∀ (st : NetState) (r : NetReq) (a : String),
      url_is_api r.url = true →
      py_or r.authLower r.authUpper = some a →
      (a != "") = true →
      is_valid_jwt_token a = true →
      handle_request st r = { token := some a, request_found := true }) ∧
    (∀ (st : NetState) (r : NetReq),
      url_is_api r.url = false → handle_request st r = st) := by
  constructor
  · intro st r a hu ha hne hv
    unfold handle_request
    rw [if_pos hu, ha]
    dsimp only
    rw [if_pos (by simp [hne, hv])]
  · intro st r hu
    unfold handle_request
    rw [if_neg (by simp [hu])]

/-- C6 witness: concrete instantiation of both amended conjuncts. -/
theorem c6_amended_witness :
    handle_request { token := some good_jwt, request_found := true } req_b
      = { token := some good_jwt2, request_found := true } ∧
    handle_request { token := some good_jwt, request_found := true }
        { url := "https://example.org/", authLower := some good_jwt2, authUpper := none }
      = { token := some good_jwt, request_found := true } := by
  refine ⟨c6_amended.1 _ req_b good_jwt2 (by decide) (by decide) (by decide) (by decide),
          c6_amended.2 _ _ (by decide)⟩

/-- C8 counterexample: at the engine's default page size (30), the
`total_pages=3, total_items=75, 25 items per page` scenario stops after
page 1 with 25 items — the short-page heuristic fires before page 2 is
ever requested. -/
theorem c8_counterexample :
    is_running (fetch_all_pages c8_env "u" 30 10) = false ∧
    is_failure (fetch_all_pages c8_env "u" 30 10) = false ∧
    requested_pages (final_state (fetch_all_pages c8_env "u" 30 10)).events = [1] ∧
    (final_state (fetch_all_pages c8_env "u" 30 10)).all_items.length = 25 := by
  refine ⟨by decide, by decide, by decide, by decide⟩

/-- C8 amended: with the requested page size equal to the 25 items the
pages deliver, the engine stops after fetching page 3 with 75 accumulated
items and never issues a request for page 4. -/
theorem c8_amended :
    is_running (fetch_all_pages c8_env "u" 25 10) = false ∧
    is_failure (fetch_all_pages c8_env "u" 25 10) = false ∧
    requested_pages (final_state (fetch_all_pages c8_env "u" 25 10)).events = [1, 2, 3] ∧
    (final_state (fetch_all_pages c8_env "u" 25 10)).all_items.length = 75 ∧
    (run_result (fetch_all_pages c8_env "u" 25 10)).map HarvestResult.total_items
      = some 75 := by
  refine ⟨by decide, by decide, by decide, by decide, by decide⟩

/-- C1 counterexample: on the last expected page (2 of 2, with only 30 of
the advisory 50 items accumulated), a parse failure with an unknown
compression scheme makes the engine stop immediately — the log shows a
single request of page 2, no sleep and no retry, and the run still returns
a partial result. -/
theorem c1_counterexample :
    is_failure (fetch_all_pages c1_env "u" 30 10) = false ∧
    is_running (fetch_all_pages c1_env "u" 30 10) = false ∧
    (final_state (fetch_all_pages c1_env "u" 30 10)).events
      = [Event.request 1, Event.request 2] ∧
    (final_state (fetch_all_pages c1_env "u" 30 10)).all_items.length = 30 := by
  refine ⟨by decide, by decide, by decide, by decide⟩

/-- C1 amended: the single delayed last-page retry happens only when the
parse failure is recovered by a successful manual decompression (the
`failRecovered` outcome): then exactly one retry of the same page is issued
after the 2-second sleep and a successful non-empty retry appends its items
and stops the harvest.  Every re-raising parse failure — no declared
encoding, an unknown compression scheme, or a failed decompression —
stops the harvest on a page past the first with the accumulated items and
no retry. -/
theorem c1_amended :
    (∀ (env : Nat → ApiResponse) (limit : Nat) (s : HarvestState) (d : PageData),
      env s.reqCount = { transportError := false, status := 200, textEmpty := false,
                         parse := ParseOutcome.failRecovered } →
      retry_applies s = true →
      env (s.reqCount + 1) = { transportError := false, status := 200,
                               textEmpty := false, parse := ParseOutcome.ok d } →
      d.items.isEmpty = false →
      step env limit s = StepOut.halt
        { s with all_items := s.all_items ++ d.items,
                 reqCount := s.reqCount + 2,
                 events := s.events ++
                   [Event.request s.page, Event.sleep 2, Event.request s.page] }) ∧
    (∀ (env : Nat → ApiResponse) (limit : Nat) (s : HarvestState),
      env s.reqCount = { transportError := false, status := 200, textEmpty := false,
                         parse := ParseOutcome.failUnknownEncRaise } →
      2 ≤ s.page →
      step env limit s = StepOut.halt
        { s with reqCount := s.reqCount + 1,
                 events := s.events ++ [Event.request s.page] }) := by
  constructor
  · intro env limit s d h1 h2 h3 h4
    have hra : retry_applies
        { s with reqCount := s.reqCount + 1,
                 events := s.events ++ [Event.request s.page] } = true := h2
    have henv : env (s.reqCount + 1)
        = { transportError := false, status := 200, textEmpty := false,
            parse := ParseOutcome.ok d } := h3
    unfold step recovered_branch after_request
    rw [h1]
    simp only [hra]
    simp [henv, h4, List.append_assoc, Nat.add_assoc]
  · intro env limit s h1 hp
    have hne : ¬ (s.page = 1) := by omega
    unfold step
    rw [h1]
    simp [fail_or_halt, after_request, hne]

set_option maxRecDepth 4000 in
/-- C1 witness: the amended theorem instantiated at the concrete retry
scenario and at the unknown-compression scenario. -/
theorem c1_amended_witness :
    step c1_env_retry 30 c1_wit_state = StepOut.halt
      { c1_wit_state with
          all_items := c1_wit_state.all_items ++ c1_retry_data.items,
          reqCount := c1_wit_state.reqCount + 2,
          events := c1_wit_state.events ++
            [Event.request c1_wit_state.page, Event.sleep 2,
             Event.request c1_wit_state.page] } ∧
    step c1_env 30 c1_wit_state = StepOut.halt
      { c1_wit_state with
          reqCount := c1_wit_state.reqCount + 1,
          events := c1_wit_state.events ++ [Event.request c1_wit_state.page] } := by
  refine ⟨c1_amended.1 c1_env_retry 30 c1_wit_state c1_retry_data
            rfl rfl rfl rfl,
          c1_amended.2 c1_env 30 c1_wit_state rfl (by decide)⟩

set_option maxRecDepth 40000 in
/-- C3 counterexample: under an environment whose every response has an
empty body, the primary fetch path has issued 150 page requests after 150
iterations and is still running — there is no 100-page safety stop in
`fetch_all_pages`. -/
theorem c3_counterexample :
    is_running (fetch_all_pages empty_env "u" 30 150) = true ∧
    (final_state (fetch_all_pages empty_env "u" 30 150)).reqCount = 150 ∧
    100 < 150 := by
  refine ⟨by decide, by decide, by decide⟩

/-- C3 amended: the primary fetch path (`fetch_all_pages`) has no page-count
ceiling at all: under an environment whose every response body is empty (so
no advisory totals are ever learned), the pagination loop never terminates,
issuing one page request per iteration without bound.  The 100-page safety
stop — like the 18-page ceiling — lives in the scraper variant, not here. -/
theorem c3_amended :
    ∀ (uid : String) (limit fuel : Nat),
      is_running (fetch_all_pages empty_env uid limit fuel) = true ∧
      (final_state (fetch_all_pages empty_env uid limit fuel)).reqCount = fuel := by
  intro uid limit fuel
  obtain ⟨s2, hrun, hc, hti, htp⟩ :=
    fetch_loop_empty limit fuel (init_state uid) rfl rfl
  unfold fetch_all_pages
  rw [hrun]
  refine ⟨rfl, ?_⟩
  have h0 : (init_state uid).reqCount = 0 := rfl
  rw [h0] at hc
  simpa using hc

/-- C5: a transport failure (request exception or non-200 status) on the
request for page 1 makes the harvest return the hard failure with no
partial result; the same failure on any page at least 2 breaks the loop
with exactly the items accumulated so far; and from any state past page 1
the loop can never return the hard failure. -/
theorem c5_first_page_failure :
    (∀ (env : Nat → ApiResponse) (uid : String) (limit fuel : Nat),
      transport_fail (env 0) = true →
      fetch_all_pages env uid limit (fuel + 1) = RunOut.finished none
        { init_state uid with reqCount := 1, events := [Event.request 1] }) ∧
    (∀ (env : Nat → ApiResponse) (limit : Nat) (s : HarvestState),
      2 ≤ s.page → transport_fail (env s.reqCount) = true →
      step env limit s = StepOut.halt (after_request s) ∧
      (mk_result (after_request s)).items = s.all_items) ∧
    (∀ (env : Nat → ApiResponse) (limit fuel : Nat) (s : HarvestState),
      2 ≤ s.page → is_failure (fetch_loop env limit fuel s) = false) := by
  refine ⟨?_, ?_, fun env limit fuel s hs => fetch_loop_no_fail env limit fuel s hs⟩
  · intro env uid limit fuel htf
    have hstep : step env limit (init_state uid)
        = StepOut.fail (after_request (init_state uid)) := by
      rw [@step_transport_fail env limit (init_state uid) htf]
      rfl
    unfold fetch_all_pages
    rw [fetch_loop, hstep]
    rfl
  · intro env limit s hs htf
    have hstep := @step_transport_fail env limit s htf
    constructor
    · rw [hstep]
      unfold fail_or_halt
      have hne : ¬ ((after_request s).page = 1) := by
        have hh : (after_request s).page = s.page := rfl
        omega
      rw [if_neg hne]
    · rfl

/-- C5 witness: the three conjuncts instantiated at the concrete page-1
and page-2 transport-failure scenarios. -/
theorem c5_first_page_failure_witness :
    fetch_all_pages c5_env_fail1 "u" 30 1 = RunOut.finished none
      { init_state "u" with reqCount := 1, events := [Event.request 1] } ∧
    (step c5_env_fail2 30 c5_wit_state = StepOut.halt (after_request c5_wit_state) ∧
      (mk_result (after_request c5_wit_state)).items = c5_wit_state.all_items) ∧
    is_failure (fetch_loop c5_env_fail2 30 5 c5_wit_state) = false := by
  refine ⟨c5_first_page_failure.1 c5_env_fail1 "u" 30 0 (by decide),
          c5_first_page_failure.2.1 c5_env_fail2 30 c5_wit_state (by decide) (by decide),
          c5_first_page_failure.2.2 c5_env_fail2 30 5 c5_wit_state (by decide)⟩

/-- C7 counterexample: a harvest whose page 1 carries no advisory metadata
and 12 items (below the page size of 30) finishes after requesting only
page 1, yet the result's `total_pages` field is 0 — not the last page
number reached (1) — because the source computes `page - 1`; the
`total_items` field does equal the accumulated count. -/
theorem c7_counterexample :
    fetch_all_pages c7_env "u" 30 10 = RunOut.finished (some (mk_result c7_final)) c7_final ∧
    (requested_pages c7_final.events).getLast? = some 1 ∧
    c7_final.total_pages = none ∧
    (mk_result c7_final).total_pages = 0 ∧
    (mk_result c7_final).total_items = 12 := by
  refine ⟨by decide, by decide, by decide, by decide, by decide⟩

/-- C7 amended: for every harvest that returns a result, the final state's
page equals the last page number actually requested, and when no advisory
page count was learned the result's `total_pages` field equals that last
page number MINUS ONE; when no advisory item count was learned the
`total_items` field equals the length of the accumulated item sequence,
which the result carries unchanged. -/
theorem c7_amended :
    ∀ (env : Nat → ApiResponse) (uid : String) (limit fuel : Nat)
      (r : HarvestResult) (s2 : HarvestState),
      fetch_all_pages env uid limit fuel = RunOut.finished (some r) s2 →
      (requested_pages s2.events).getLast? = some s2.page ∧
      (s2.total_pages = none → r.total_pages = s2.page - 1) ∧
      (s2.total_items = none → r.total_items = s2.all_items.length) ∧
      r.items = s2.all_items := by
  intro env uid limit fuel r s2 h
  obtain ⟨hr, hlast⟩ := fetch_loop_finished_some h
  subst hr
  refine ⟨hlast, ?_, ?_, rfl⟩
  · intro hn
    simp [mk_result, or_nonzero, hn]
  · intro hn
    simp [mk_result, or_nonzero, hn]

/-- C7 witness: the amended theorem instantiated at the concrete
short-first-page run. -/
theorem c7_amended_witness :
    (requested_pages c7_final.events).getLast? = some c7_final.page ∧
    (c7_final.total_pages = none →
      (mk_result c7_final).total_pages = c7_final.page - 1) ∧
    (c7_final.total_items = none →
      (mk_result c7_final).total_items = c7_final.all_items.length) ∧
    (mk_result c7_final).items = c7_final.all_items :=
  c7_amended c7_env "u" 30 10 (mk_result c7_final) c7_final (by decide)

/-- C9: in both token-acquisition flows, whatever the outcomes of the
blocking browser operations — successful acquisition, no credential found,
or an exception raised inside the acquisition body — the browser-close
event is the last event before the function returns, and it happens exactly
once. -/
theorem c9_browser_closed :
    (∀ e : AcqEnv,
      (get_token_api_model e).2.getLast? = some BEvent.close ∧
      (get_token_api_model e).2.count BEvent.close = 1) ∧
    (∀ e : AcqEnv,
      (get_token_gt_model e).2.getLast? = some BEvent.close ∧
      (get_token_gt_model e).2.count BEvent.close = 1) := by
  have hlast : ∀ (x : BEvent) (xs : List BEvent) (y : BEvent),
      (x :: (xs ++ [y])).getLast? = some y := by
    intro x xs y
    rw [← List.cons_append, List.getLast?_concat]
  have hbody : ∀ e : AcqEnv, BEvent.close ∉ (acq_body e).1 := by
    intro e
    unfold acq_body
    repeat' split
    all_goals simp
  have hbody2 : ∀ e : AcqEnv, BEvent.close ∉ (acq_body_gt e).1 := by
    intro e
    unfold acq_body_gt
    repeat' split
    all_goals simp
  constructor
  · intro e
    unfold get_token_api_model
    dsimp only
    constructor
    · cases h : (acq_body e).2 <;> exact hlast _ _ _
    · cases h : (acq_body e).2 <;>
        simp [List.count_append, List.count_eq_zero.mpr (hbody e), List.count_cons,
              List.count_nil]
  · intro e
    unfold get_token_gt_model
    dsimp only
    constructor
    · cases h : (acq_body_gt e).2 <;> exact hlast _ _ _
    · cases h : (acq_body_gt e).2 <;>
        simp [List.count_append, List.count_eq_zero.mpr (hbody2 e), List.count_cons,
              List.count_nil]

/-- C10: when both a non-empty token and a non-empty user id are supplied,
`fetch_bookshelf_data` never invokes the browser acquisition and passes
both through to `fetch_all_pages` unchanged; when either is absent or
empty — including a supplied token with a missing user id — the browser
acquisition is invoked. -/
theorem c10_token_passthrough :
    (∀ (env : FBEnv) (t u : String), t ≠ "" → u ≠ "" →
      (fetch_bookshelf_data env (some t) (some u)).pwInvoked = false ∧
      (fetch_bookshelf_data env (some t) (some u)).fetchArgs = some (t, u)) ∧
    (∀ (env : FBEnv) (tok uid : Option String),
      py_truthy tok = false ∨ py_truthy uid = false →
      (fetch_bookshelf_data env tok uid).pwInvoked = true) := by
  constructor
  · intro env t u ht hu
    have htt : py_truthy (some t) = true := by simp [py_truthy, ht]
    have htu : py_truthy (some u) = true := by simp [py_truthy, hu]
    unfold fetch_bookshelf_data
    rw [if_neg (by simp [htt, htu])]
    refine ⟨rfl, ?_⟩
    simp [htu]
  · intro env tok uid h
    have hcond : (!(py_truthy tok) || !(py_truthy uid)) = true := by
      cases h with
      | inl h1 => simp [h1]
      | inr h2 => simp [h2]
    unfold fetch_bookshelf_data
    rw [if_pos hcond]
    cases env.pw with
    | noneRes => rfl
    | tup et eu =>
      dsimp only
      by_cases he : et = none
      · rw [if_pos he]
      · rw [if_neg he]
        repeat' split
        all_goals rfl

/-- C10 witness: both conjuncts instantiated at a concrete environment,
token and user id. -/
theorem c10_token_passthrough_witness :
    ((fetch_bookshelf_data c10_env (some "tok_value") (some "42")).pwInvoked = false ∧
     (fetch_bookshelf_data c10_env (some "tok_value") (some "42")).fetchArgs
       = some ("tok_value", "42")) ∧
    (fetch_bookshelf_data c10_env (some "tok_value") none).pwInvoked = true := by
  refine ⟨c10_token_passthrough.1 c10_env "tok_value" "42" (by decide) (by decide),
          c10_token_passthrough.2 c10_env (some "tok_value") none (Or.inr (by decide))⟩

end Skoob
